import Mathlib

/-!
Verification of the design-pattern examples in rust-design-patterns.
Shallow embedding of src/patterns/command.rs, strategy_di.rs,
raii_guard.rs and newtype.rs, followed by theorems settling the
specification claims about them.
-/

namespace DesignPatterns

namespace command

/-! Embedding of src/patterns/command.rs.  The module offers three
representations of a schema-migration command log; all migration
actions are zero-argument functions returning a label string. -/

namespace trait_object

/-- Embeds a boxed `dyn Migration` trait object: two zero-argument
label-producing methods stored behind one handle. -/
structure Migration where
  execute : Unit → String
  rollback : Unit → String

/-- Embeds the unit struct `CreateTable` with its `Migration` impl. -/
def CreateTable : Migration :=
  ⟨fun _ => "create table", fun _ => "drop table"⟩

/-- Embeds the unit struct `AddField` with its `Migration` impl. -/
def AddField : Migration :=
  ⟨fun _ => "add field", fun _ => "remove field"⟩

/-- Embeds `trait_object::Schema`: a vector of boxed migrations. -/
structure Schema where
  commands : List Migration

/-- Embeds `Schema::new`: the empty command vector. -/
def Schema.new : Schema := ⟨[]⟩

/-- Embeds the `Default` impl, which delegates to `Schema::new`. -/
def Schema.default : Schema := Schema.new

/-- Embeds `Schema::add_migration`: pushes one command at the end. -/
def Schema.add_migration (s : Schema) (cmd : Migration) : Schema :=
  ⟨s.commands ++ [cmd]⟩

/-- Embeds `Schema::execute`: map `execute` over the commands in
insertion order. -/
def Schema.execute (s : Schema) : List String :=
  s.commands.map fun cmd => cmd.execute ()

/-- Embeds `Schema::rollback`: map `rollback` over the commands in
reverse insertion order. -/
def Schema.rollback (s : Schema) : List String :=
  s.commands.reverse.map fun cmd => cmd.rollback ()

/-- Appending a whole list of migrations one by one, in order. -/
def Schema.addAll (s : Schema) (ms : List Migration) : Schema :=
  ms.foldl Schema.add_migration s

end trait_object

namespace function_pointer

/-- Embeds the type alias `FnPtr = fn() -> String`. -/
def FnPtr : Type := Unit → String

/-- Embeds `function_pointer::Command`: a pair of function pointers. -/
structure Command where
  execute : FnPtr
  rollback : FnPtr

/-- Embeds `function_pointer::Schema`: a vector of command pairs. -/
structure Schema where
  commands : List Command

/-- Embeds `Schema::new`. -/
def Schema.new : Schema := ⟨[]⟩

/-- Embeds the `Default` impl, which delegates to `Schema::new`. -/
def Schema.default : Schema := Schema.new

/-- Embeds `Schema::add_migration`: pushes one `Command` built from the
two function pointers. -/
def Schema.add_migration (s : Schema) (execute rollback : FnPtr) : Schema :=
  ⟨s.commands ++ [⟨execute, rollback⟩]⟩

/-- Embeds `Schema::execute`: call each stored execute pointer in
insertion order. -/
def Schema.execute (s : Schema) : List String :=
  s.commands.map fun cmd => cmd.execute ()

/-- Embeds `Schema::rollback`: call each stored rollback pointer in
reverse insertion order. -/
def Schema.rollback (s : Schema) : List String :=
  s.commands.reverse.map fun cmd => cmd.rollback ()

/-- Appending a whole list of pointer pairs one by one, in order. -/
def Schema.addAll (s : Schema) (cs : List (FnPtr × FnPtr)) : Schema :=
  cs.foldl (fun s c => s.add_migration c.1 c.2) s

end function_pointer

namespace fn_trait_object

/-- Embeds the type alias for a boxed closure returning a label. -/
def Migration : Type := Unit → String

/-- Embeds `fn_trait_object::Schema`: two parallel vectors of boxed
closures, one for executes and one for rollbacks. -/
structure Schema where
  executes : List Migration
  rollbacks : List Migration

/-- Embeds `Schema::new`. -/
def Schema.new : Schema := ⟨[], []⟩

/-- Embeds the `Default` impl, which delegates to `Schema::new`. -/
def Schema.default : Schema := Schema.new

/-- Embeds `Schema::add_migration`: pushes the execute closure onto
`executes` and the rollback closure onto `rollbacks`. -/
def Schema.add_migration (s : Schema) (execute rollback : Migration) : Schema :=
  ⟨s.executes ++ [execute], s.rollbacks ++ [rollback]⟩

/-- Embeds `Schema::execute`: call the execute closures in order. -/
def Schema.execute (s : Schema) : List String :=
  s.executes.map fun f => f ()

/-- Embeds `Schema::rollback`: call the rollback closures in reverse
order. -/
def Schema.rollback (s : Schema) : List String :=
  s.rollbacks.reverse.map fun f => f ()

/-- Appending a whole list of closure pairs one by one, in order. -/
def Schema.addAll (s : Schema) (cs : List (Migration × Migration)) : Schema :=
  cs.foldl (fun s c => s.add_migration c.1 c.2) s

end fn_trait_object

/-- Models one observable call of a `&self` method in explicit
state-passing style: the call yields a result together with the state it
leaves behind; `runs` chains `n` such calls and collects the results and
the final state.  Used to express that `execute` and `rollback` are
read-only and replayable. -/
def runs {σ α : Type} (f : σ → α × σ) : Nat → σ → List α × σ
  | 0, s => ([], s)
  | n + 1, s => ((f s).1 :: (runs f n (f s).2).1, (runs f n (f s).2).2)

/-- One call of `trait_object::Schema::execute`: it borrows the schema
immutably, so the state after the call is the state before it. -/
def trait_object.Schema.executeCall (s : trait_object.Schema) :
    List String × trait_object.Schema :=
  (s.execute, s)

/-- One call of `trait_object::Schema::rollback` (immutable borrow). -/
def trait_object.Schema.rollbackCall (s : trait_object.Schema) :
    List String × trait_object.Schema :=
  (s.rollback, s)

/-- One call of `function_pointer::Schema::execute` (immutable borrow). -/
def function_pointer.Schema.executeCall (s : function_pointer.Schema) :
    List String × function_pointer.Schema :=
  (s.execute, s)

/-- One call of `function_pointer::Schema::rollback` (immutable borrow). -/
def function_pointer.Schema.rollbackCall (s : function_pointer.Schema) :
    List String × function_pointer.Schema :=
  (s.rollback, s)

/-- Builds a `trait_object` schema from a list of label pairs
(execute-label, rollback-label): the semantic content of a migration,
since every migration action is a zero-argument label producer. -/
def buildTraitObject (ps : List (String × String)) : trait_object.Schema :=
  trait_object.Schema.new.addAll (ps.map fun p => ⟨fun _ => p.1, fun _ => p.2⟩)

/-- Builds a `function_pointer` schema from the same label pairs. -/
def buildFunctionPointer (ps : List (String × String)) :
    function_pointer.Schema :=
  function_pointer.Schema.new.addAll
    (ps.map fun p => (fun _ => p.1, fun _ => p.2))

/-- Builds a `fn_trait_object` schema from the same label pairs. -/
def buildFnTraitObject (ps : List (String × String)) :
    fn_trait_object.Schema :=
  fn_trait_object.Schema.new.addAll
    (ps.map fun p => (fun _ => p.1, fun _ => p.2))

end command

namespace strategy_di

/-! Embedding of src/patterns/strategy_di.rs. -/

/-- Embeds the `Database` trait: a backend is determined by its `query`
method, which maps a query string to a response string. -/
structure Database where
  query : String → String

/-- Embeds `MySQLDatabase`, whose `query` echoes the query back behind
the backend name and a colon-space. -/
def MySQLDatabase : Database :=
  ⟨fun q => "MySQL: " ++ q⟩

/-- Embeds `PostgresDatabase`. -/
def PostgresDatabase : Database :=
  ⟨fun q => "Postgres: " ++ q⟩

/-- The set of values representable by a Rust `i32`. -/
def validI32 (x : Int) : Prop := -(2 ^ 31) ≤ x ∧ x < 2 ^ 31

instance (x : Int) : Decidable (validI32 x) := by
  unfold validI32; infer_instance

/-- Two's-complement wrap-around into the `i32` range, the release-mode
semantics of Rust integer arithmetic. -/
def wrapI32 (x : Int) : Int := (x + 2 ^ 31) % 2 ^ 32 - 2 ^ 31

/-- Embeds the `Strategy` trait: a strategy is determined by its
`execute_strategy` method over two `i32` arguments. -/
structure Strategy where
  execute_strategy : Int → Int → Int

/-- Embeds `AdditionStrategy`: `a + b` on `i32`. -/
def AdditionStrategy : Strategy :=
  ⟨fun a b => wrapI32 (a + b)⟩

/-- Embeds `SubtractionStrategy`: `a - b` on `i32`. -/
def SubtractionStrategy : Strategy :=
  ⟨fun a b => wrapI32 (a - b)⟩

/-- Embeds `DataService<D>`: holds the injected database. -/
structure DataService where
  db : Database

/-- Embeds `DataService::new`. -/
def DataService.new (db : Database) : DataService := ⟨db⟩

/-- Embeds `DataService::get_data`: delegates to the database. -/
def DataService.get_data (ds : DataService) (query : String) : String :=
  ds.db.query query

/-- Embeds `Context<S, D>`: holds the injected strategy and service. -/
structure Context where
  strategy : Strategy
  data_service : DataService

/-- Embeds `Context::new`. -/
def Context.new (strategy : Strategy) (data_service : DataService) : Context :=
  ⟨strategy, data_service⟩

/-- Embeds `Context::execute`: run the strategy, format the result into
a SELECT string, and pass it to the data service. -/
def Context.execute (c : Context) (a b : Int) : String :=
  c.data_service.get_data ("SELECT " ++ toString (c.strategy.execute_strategy a b) ++ ";")

end strategy_di

namespace raii_guard

/-! Embedding of src/patterns/raii_guard.rs.  The `println!` side
effects are pure console logging and carry no state; the embedded state
is the `connected` flag and the guard's `Option` slot. -/

/-- Embeds `io::ErrorKind` restricted to the kind the module uses. -/
inductive ErrorKind where
  | brokenPipe
  deriving DecidableEq, Repr

/-- Embeds `io::Error`: a kind plus a message. -/
structure IoError where
  kind : ErrorKind
  msg : String
  deriving DecidableEq, Repr

/-- Embeds `NetworkConnection`. -/
structure NetworkConnection where
  connected : Bool
  deriving DecidableEq, Repr

/-- Embeds `NetworkConnection::connect`: starts connected. -/
def NetworkConnection.connect : NetworkConnection := ⟨true⟩

/-- Embeds `NetworkConnection::send_data`: `Ok` while connected,
`BrokenPipe` error once closed. -/
def NetworkConnection.send_data (n : NetworkConnection) (_ : String) :
    Except IoError Unit :=
  if n.connected then .ok () else .error ⟨.brokenPipe, "Connection closed"⟩

/-- Embeds `NetworkConnection::close`: clears the connected flag. -/
def NetworkConnection.close (_ : NetworkConnection) : NetworkConnection :=
  ⟨false⟩

/-- Embeds `ConnectionGuard`: an optional owned connection. -/
structure ConnectionGuard where
  network : Option NetworkConnection
  deriving DecidableEq, Repr

/-- Embeds `ConnectionGuard::new`: wraps a fresh live connection. -/
def ConnectionGuard.new : ConnectionGuard :=
  ⟨some NetworkConnection.connect⟩

/-- Embeds `ConnectionGuard::send_data`: delegates to the connection if
present, else returns the `BrokenPipe` error. -/
def ConnectionGuard.send_data (g : ConnectionGuard) (data : String) :
    Except IoError Unit :=
  match g.network with
  | some network => network.send_data data
  | none => .error ⟨.brokenPipe, "Connection closed"⟩

/-- Embeds `ConnectionGuard::close`: `take`s the slot (leaving `none`)
and closes the taken connection if there was one. -/
def ConnectionGuard.close (g : ConnectionGuard) : ConnectionGuard :=
  match g.network with
  | some network => let _ := network.close; ⟨none⟩
  | none => ⟨none⟩

/-- Embeds the `Drop` impl: dropping the guard calls `close`. -/
def ConnectionGuard.drop (g : ConnectionGuard) : ConnectionGuard :=
  g.close

end raii_guard

namespace newtype

/-! Embedding of src/patterns/newtype.rs. -/

/-- Embeds the tuple struct `Password(String)`. -/
structure Password where
  val : String

/-- A string of `n` asterisks, the embedding of the Rust expression
that repeats the one-character string sixteen times. -/
def starRepeat (n : Nat) : String :=
  String.mk (List.replicate n '*')

/-- Embeds the `Display` impl for `Password`: writes sixteen asterisks
and never reads the wrapped string. -/
def Password.display (_ : Password) : String :=
  starRepeat 16

end newtype

/-! Helper lemmas about appending a list of migrations. -/

theorem command.trait_object.Schema.addAll_commands
    (s : command.trait_object.Schema)
    (ms : List command.trait_object.Migration) :
    (s.addAll ms).commands = s.commands ++ ms := by
  induction ms generalizing s with
  | nil => simp [Schema.addAll]
  | cons m ms ih =>
    rw [show s.addAll (m :: ms) = (s.add_migration m).addAll ms from rfl, ih]
    simp [Schema.add_migration]

theorem command.function_pointer.Schema.addAll_commandsFp
    (s : command.function_pointer.Schema)
    (cs : List (command.function_pointer.FnPtr × command.function_pointer.FnPtr)) :
    (s.addAll cs).commands = s.commands ++ cs.map fun c => ⟨c.1, c.2⟩ := by
  induction cs generalizing s with
  | nil => simp [Schema.addAll]
  | cons c cs ih =>
    rw [show s.addAll (c :: cs) = (s.add_migration c.1 c.2).addAll cs from rfl, ih]
    simp [Schema.add_migration]

theorem command.fn_trait_object.Schema.addAll_fields
    (s : command.fn_trait_object.Schema)
    (cs : List (command.fn_trait_object.Migration × command.fn_trait_object.Migration)) :
    (s.addAll cs).executes = s.executes ++ cs.map Prod.fst
    ∧ (s.addAll cs).rollbacks = s.rollbacks ++ cs.map Prod.snd := by
  induction cs generalizing s with
  | nil => simp [Schema.addAll]
  | cons c cs ih =>
    rw [show s.addAll (c :: cs) = (s.add_migration c.1 c.2).addAll cs from rfl]
    simp [(ih _).1, (ih _).2, Schema.add_migration]

/-- Chaining read-only calls: if each call leaves the state unchanged,
then `n` chained calls return `n` copies of the one result and end in
the starting state. -/
theorem command.runs_of_readonly {σ α : Type} (f : σ → α × σ)
    (h : ∀ s, (f s).2 = s) (n : Nat) (s : σ) :
    command.runs f n s = (List.replicate n (f s).1, s) := by
  induction n generalizing s with
  | zero => simp [command.runs]
  | succ n ih => simp [command.runs, h, ih, List.replicate_succ]

/-- C1: for every sequence of migrations appended to a fresh Schema, in
each of the three representations, `execute()` returns the sequence of
their execute-labels in insertion order (first-appended first). -/
theorem C1_execute_insertion_order :
    (∀ ms : List command.trait_object.Migration,
      (command.trait_object.Schema.new.addAll ms).execute
        = ms.map fun m => m.execute ())
    ∧ (∀ cs : List (command.function_pointer.FnPtr × command.function_pointer.FnPtr),
      (command.function_pointer.Schema.new.addAll cs).execute
        = cs.map fun c => c.1 ())
    ∧ (∀ cs : List (command.fn_trait_object.Migration × command.fn_trait_object.Migration),
      (command.fn_trait_object.Schema.new.addAll cs).execute
        = cs.map fun c => c.1 ()) := by
  refine ⟨fun ms => ?_, fun cs => ?_, fun cs => ?_⟩
  · simp [command.trait_object.Schema.execute,
      command.trait_object.Schema.addAll_commands,
      command.trait_object.Schema.new]
  · simp [command.function_pointer.Schema.execute,
      command.function_pointer.Schema.addAll_commandsFp,
      command.function_pointer.Schema.new]
  · simp [command.fn_trait_object.Schema.execute,
      (command.fn_trait_object.Schema.new.addAll_fields cs).1,
      show command.fn_trait_object.Schema.new.executes = [] from rfl]

/-- C2: for every sequence of migrations appended to a fresh Schema, in
each of the three representations, `rollback()` returns the sequence of
their rollback-labels in exactly reverse insertion order (last-appended
first). -/
theorem C2_rollback_reverse_order :
    (∀ ms : List command.trait_object.Migration,
      (command.trait_object.Schema.new.addAll ms).rollback
        = (ms.map fun m => m.rollback ()).reverse)
    ∧ (∀ cs : List (command.function_pointer.FnPtr × command.function_pointer.FnPtr),
      (command.function_pointer.Schema.new.addAll cs).rollback
        = (cs.map fun c => c.2 ()).reverse)
    ∧ (∀ cs : List (command.fn_trait_object.Migration × command.fn_trait_object.Migration),
      (command.fn_trait_object.Schema.new.addAll cs).rollback
        = (cs.map fun c => c.2 ()).reverse) := by
  refine ⟨fun ms => ?_, fun cs => ?_, fun cs => ?_⟩
  · simp [command.trait_object.Schema.rollback,
      command.trait_object.Schema.addAll_commands,
      command.trait_object.Schema.new]
  · simp [command.function_pointer.Schema.rollback,
      command.function_pointer.Schema.addAll_commandsFp,
      command.function_pointer.Schema.new]
  · simp [command.fn_trait_object.Schema.rollback,
      (command.fn_trait_object.Schema.new.addAll_fields cs).2,
      show command.fn_trait_object.Schema.new.rollbacks = [] from rfl]

/-- C3: the three Schema representations produce identical `execute()`
and `rollback()` output sequences when the semantically equivalent
migrations (the same execute-label and rollback-label pairs, appended in
the same order) are fed to each. -/
theorem C3_representations_equivalent :
    ∀ ps : List (String × String),
      (command.buildTraitObject ps).execute
          = (command.buildFunctionPointer ps).execute
      ∧ (command.buildFunctionPointer ps).execute
          = (command.buildFnTraitObject ps).execute
      ∧ (command.buildTraitObject ps).rollback
          = (command.buildFunctionPointer ps).rollback
      ∧ (command.buildFunctionPointer ps).rollback
          = (command.buildFnTraitObject ps).rollback := by
  intro ps
  have h1 : (command.buildTraitObject ps).execute = ps.map Prod.fst := by
    simp [command.buildTraitObject, command.trait_object.Schema.execute,
      command.trait_object.Schema.addAll_commands, command.trait_object.Schema.new]
  have h2 : (command.buildFunctionPointer ps).execute = ps.map Prod.fst := by
    simp [command.buildFunctionPointer, command.function_pointer.Schema.execute,
      command.function_pointer.Schema.addAll_commandsFp,
      command.function_pointer.Schema.new]
  have h3 : (command.buildFnTraitObject ps).execute = ps.map Prod.fst := by
    simp [command.buildFnTraitObject, command.fn_trait_object.Schema.execute,
      (command.fn_trait_object.Schema.new.addAll_fields _).1,
      show command.fn_trait_object.Schema.new.executes = [] from rfl]
  have h4 : (command.buildTraitObject ps).rollback = (ps.map Prod.snd).reverse := by
    simp [command.buildTraitObject, command.trait_object.Schema.rollback,
      command.trait_object.Schema.addAll_commands, command.trait_object.Schema.new]
  have h5 : (command.buildFunctionPointer ps).rollback = (ps.map Prod.snd).reverse := by
    simp [command.buildFunctionPointer, command.function_pointer.Schema.rollback,
      command.function_pointer.Schema.addAll_commandsFp,
      command.function_pointer.Schema.new]
  have h6 : (command.buildFnTraitObject ps).rollback = (ps.map Prod.snd).reverse := by
    simp [command.buildFnTraitObject, command.fn_trait_object.Schema.rollback,
      (command.fn_trait_object.Schema.new.addAll_fields _).2,
      show command.fn_trait_object.Schema.new.rollbacks = [] from rfl]
  exact ⟨h1.trans h2.symm, h2.trans h3.symm, h4.trans h5.symm, h5.trans h6.symm⟩

/-- C4: a freshly created Schema (via `new`, which `default` delegates
to) returns the empty sequence from both `execute()` and `rollback()`
in all three representations.  The absence of a failure mode is
reflected in both operations being total functions into plain lists. -/
theorem C4_empty_schema :
    command.trait_object.Schema.new.execute = []
    ∧ command.trait_object.Schema.new.rollback = []
    ∧ command.trait_object.Schema.default.execute = []
    ∧ command.trait_object.Schema.default.rollback = []
    ∧ command.function_pointer.Schema.new.execute = []
    ∧ command.function_pointer.Schema.new.rollback = []
    ∧ command.function_pointer.Schema.default.execute = []
    ∧ command.function_pointer.Schema.default.rollback = []
    ∧ command.fn_trait_object.Schema.new.execute = []
    ∧ command.fn_trait_object.Schema.new.rollback = []
    ∧ command.fn_trait_object.Schema.default.execute = []
    ∧ command.fn_trait_object.Schema.default.rollback = [] :=
  ⟨rfl, rfl, rfl, rfl, rfl, rfl, rfl, rfl, rfl, rfl, rfl, rfl⟩

/-- C5: `add_migration` appends exactly one entry at the end and
changes nothing else: afterwards `execute()` is the old output with the
new execute-label appended, and `rollback()` is the new rollback-label
followed by the old output.  Stated for all three representations;
`add_migration` is total, so it has no error conditions. -/
theorem C5_add_migration_frame :
    (∀ (s : command.trait_object.Schema) (m : command.trait_object.Migration),
      (s.add_migration m).execute = s.execute ++ [m.execute ()]
      ∧ (s.add_migration m).rollback = m.rollback () :: s.rollback)
    ∧ (∀ (s : command.function_pointer.Schema)
        (e r : command.function_pointer.FnPtr),
      (s.add_migration e r).execute = s.execute ++ [e ()]
      ∧ (s.add_migration e r).rollback = r () :: s.rollback)
    ∧ (∀ (s : command.fn_trait_object.Schema)
        (e r : command.fn_trait_object.Migration),
      (s.add_migration e r).execute = s.execute ++ [e ()]
      ∧ (s.add_migration e r).rollback = r () :: s.rollback) := by
  refine ⟨fun s m => ⟨?_, ?_⟩, fun s e r => ⟨?_, ?_⟩, fun s e r => ⟨?_, ?_⟩⟩
  · simp [command.trait_object.Schema.add_migration,
      command.trait_object.Schema.execute]
  · simp [command.trait_object.Schema.add_migration,
      command.trait_object.Schema.rollback]
  · simp [command.function_pointer.Schema.add_migration,
      command.function_pointer.Schema.execute]
  · simp [command.function_pointer.Schema.add_migration,
      command.function_pointer.Schema.rollback]
  · simp [command.fn_trait_object.Schema.add_migration,
      command.fn_trait_object.Schema.execute]
  · simp [command.fn_trait_object.Schema.add_migration,
      command.fn_trait_object.Schema.rollback]

/-- C6: `execute()` and `rollback()` are read-only and replayable: `n`
chained calls on any Schema (trait-object or function-pointer variant)
all return the same sequence and leave the Schema state unchanged. -/
theorem C6_idempotent_readonly :
    ∀ (n : Nat) (s : command.trait_object.Schema)
      (t : command.function_pointer.Schema),
      command.runs command.trait_object.Schema.executeCall n s
        = (List.replicate n s.execute, s)
      ∧ command.runs command.trait_object.Schema.rollbackCall n s
        = (List.replicate n s.rollback, s)
      ∧ command.runs command.function_pointer.Schema.executeCall n t
        = (List.replicate n t.execute, t)
      ∧ command.runs command.function_pointer.Schema.rollbackCall n t
        = (List.replicate n t.rollback, t) := by
  intro n s t
  exact ⟨command.runs_of_readonly _ (fun _ => rfl) n s,
    command.runs_of_readonly _ (fun _ => rfl) n s,
    command.runs_of_readonly _ (fun _ => rfl) n t,
    command.runs_of_readonly _ (fun _ => rfl) n t⟩

/-- C7: appending `CreateTable` (labels "create table" / "drop table")
and then `AddField` (labels "add field" / "remove field") to a default
trait-object Schema makes `execute()` return ["create table",
"add field"] and `rollback()` return ["remove field", "drop table"],
exactly as the unit test asserts. -/
theorem C7_concrete_scenario :
    ((command.trait_object.Schema.default.add_migration
        command.trait_object.CreateTable).add_migration
        command.trait_object.AddField).execute
      = ["create table", "add field"]
    ∧ ((command.trait_object.Schema.default.add_migration
        command.trait_object.CreateTable).add_migration
        command.trait_object.AddField).rollback
      = ["remove field", "drop table"] :=
  ⟨rfl, rfl⟩

/-- C8: for every pair of i32 inputs, `Context::execute(a, b)` computes
the strategy result r, formats it into the SELECT string, and returns
that string behind the installed database's backend name and a
colon-space; with the addition strategy over the MySQL stub at (2, 3)
the output is "MySQL: SELECT 5;". -/
theorem C8_context_execute (S : strategy_di.Strategy) (a b : Int)
    (_ha : strategy_di.validI32 a) (_hb : strategy_di.validI32 b) :
    (strategy_di.Context.new S
        (strategy_di.DataService.new strategy_di.MySQLDatabase)).execute a b
      = "MySQL: " ++ ("SELECT " ++ toString (S.execute_strategy a b) ++ ";")
    ∧ (strategy_di.Context.new S
        (strategy_di.DataService.new strategy_di.PostgresDatabase)).execute a b
      = "Postgres: " ++ ("SELECT " ++ toString (S.execute_strategy a b) ++ ";")
    ∧ (strategy_di.Context.new strategy_di.AdditionStrategy
        (strategy_di.DataService.new strategy_di.MySQLDatabase)).execute 2 3
      = "MySQL: SELECT 5;" :=
  ⟨rfl, rfl, by decide⟩

/-- C8 witness: the theorem instantiated with the addition strategy at
the concrete i32 pair (2, 3). -/
theorem C8_context_execute_witness :
    strategy_di.validI32 2 ∧ strategy_di.validI32 3 ∧
    (strategy_di.Context.new strategy_di.AdditionStrategy
        (strategy_di.DataService.new strategy_di.MySQLDatabase)).execute 2 3
      = "MySQL: SELECT 5;" :=
  ⟨by decide, by decide,
    (C8_context_execute strategy_di.AdditionStrategy 2 3
      (by decide) (by decide)).2.2⟩

/-- C9: `send_data` on a guard whose connection has been released (via
`close`, which `drop` performs on scope exit) returns the distinguished
`BrokenPipe` error value rather than crashing, while `send_data` on a
freshly constructed guard returns `Ok`; and dropping any guard leaves
the connection slot released regardless of its prior state. -/
theorem C9_guard_release :
    ∀ (g : raii_guard.ConnectionGuard) (data : String),
      raii_guard.ConnectionGuard.new.send_data data = .ok ()
      ∧ (g.close).send_data data
          = .error ⟨.brokenPipe, "Connection closed"⟩
      ∧ (g.drop).send_data data
          = .error ⟨.brokenPipe, "Connection closed"⟩
      ∧ (g.drop).network = none := by
  intro g data
  obtain ⟨n⟩ := g
  cases n with
  | none =>
    exact ⟨rfl, rfl, rfl, rfl⟩
  | some c =>
    exact ⟨rfl, rfl, rfl, rfl⟩

/-- C10: displaying a `Password` always yields exactly sixteen
asterisks, for every wrapped string, so the output is independent of
the secret's content and length: any two passwords display
identically. -/
theorem C10_password_display_masks :
    (∀ s : String,
      (newtype.Password.mk s).display = "****************")
    ∧ ∀ s t : String,
      (newtype.Password.mk s).display = (newtype.Password.mk t).display :=
  ⟨fun _ => show newtype.starRepeat 16 = "****************" by decide,
    fun _ _ => rfl⟩

end DesignPatterns
